import Mathlib

/-!
Shallow embedding of `src/main.py` (FreeBili): the CMS response parser
(`parse_cms_data`), the per-source fetch (`fetch_and_process`), the SSE
streaming generator (`search_event_generator`) and the configuration
update handler (`update_config`).

Strings are modelled as `List Char`; Python `dict.get` on possibly
missing keys is modelled with `Option` fields.
-/

/-- Python strings are modelled as lists of characters. -/
abbrev Str := List Char

/-- Shorthand turning a Lean string literal into the model type. -/
def str (s : String) : Str := s.data

/-- One episode dict `{"name": ..., "video_url": ...}` built at
`main.py:62`. -/
structure Video where
  name : Str
  video_url : Str
deriving DecidableEq

/-- One raw CMS catalog entry (`item` in `parse_cms_data`); every field
is read with `item.get(...)`, so each is optional. -/
structure RawEntry where
  vod_name : Option Str
  vod_pic : Option Str
  vod_play_url : Option Str
  vod_id : Option Str
  vod_douban_id : Option Str
deriving DecidableEq

/-- One parsed title dict appended at `main.py:65`. -/
structure TitleResult where
  name : Str
  vod_pic : Str
  videos : List Video
  vod_id : Str
  vod_douban_id : Str
deriving DecidableEq

/-- The dict returned by `parse_cms_data` (`main.py:73`):
`{"name": source_name, "result": results}`. -/
structure SourceResult where
  name : Str
  result : List TitleResult
deriving DecidableEq

/-- Python `s.split(sep)` for a single-character separator `sep`
(used at `main.py:57` with `#` and `main.py:59` with `$`).
`"".split(c) = [""]`, and separators at the ends produce empty parts. -/
def splitOnChar (sep : Char) : Str → List Str
  | [] => [[]]
  | c :: rest =>
    let r := splitOnChar sep rest
    if c = sep then [] :: r
    else (c :: r.headD []) :: r.tail

/-- Python `s.split("$$$")` (used at `main.py:54`): split on the
leftmost non-overlapping occurrences of three consecutive dollars. -/
def splitOn3Dollars : Str → List Str
  | [] => [[]]
  | '$' :: '$' :: '$' :: rest => [] :: splitOn3Dollars rest
  | c :: rest =>
    let r := splitOn3Dollars rest
    (c :: r.headD []) :: r.tail

/-- Embeds `main.py:59-62`: split one episode token on `$` and keep it only
when the split has exactly two parts. -/
def parseEpisodeToken (episode : Str) : Option Video :=
  match splitOnChar '$' episode with
  | [video_name, video_url] => some ⟨video_name, video_url⟩
  | _ => none

/-- Embeds `main.py:54`: the first play scheme,
`item.get("vod_play_url", "").split("$$$")[0]`. -/
def playScheme (item : RawEntry) : Str :=
  (splitOn3Dollars (item.vod_play_url.getD [])).headD []

/-- The body of the `for item in cms_list` loop (`main.py:53-71`): an
entry contributes a title exactly when its video list is non-empty. -/
def parseEntry (item : RawEntry) : Option TitleResult :=
  let episodes := splitOnChar '#' (playScheme item)
  let videos := episodes.filterMap parseEpisodeToken
  if videos = [] then none
  else some ⟨item.vod_name.getD (str "未知名称"), item.vod_pic.getD [],
             videos, item.vod_id.getD [], item.vod_douban_id.getD []⟩

/-- Embeds `parse_cms_data` (`main.py:48-76`). -/
def parse_cms_data (source_name : Str) (cms_list : List RawEntry) : SourceResult :=
  ⟨source_name, cms_list.filterMap parseEntry⟩

/-- Embeds `main.py:82`: `url = f"{source['base_url']}?ac=detail&wd={keyword}"` —
plain string interpolation, no encoding of the keyword. -/
def build_url (base_url keyword : Str) : Str :=
  base_url ++ str "?ac=detail&wd=" ++ keyword

/-- One hexadecimal digit. -/
def hexDigit (n : Nat) : Char :=
  if n < 10 then Char.ofNat (48 + n) else Char.ofNat (55 + n)

/-- Modelled from the spec: "keyword must be percent-encoded".  An URL
percent-encoder for the (ASCII) keyword: unreserved characters pass
through, every other character becomes `%HH`.  This definition follows
the spec's words and exists only to be compared against `build_url`. -/
def percent_encode (keyword : Str) : Str :=
  keyword.flatMap fun c =>
    if c.isAlphanum ∨ c = '-' ∨ c = '.' ∨ c = '_' ∨ c = '~' then [c]
    else ['%', hexDigit (c.toNat / 16), hexDigit (c.toNat % 16)]

/-- The JSON body expected by `fetch_and_process` (`main.py:96-97`):
`data.get("code")` and `data.get("list")`, both possibly absent. -/
structure CmsBody where
  code : Option Int
  list : Option (List RawEntry)
deriving DecidableEq

/-- What the HTTP GET at `main.py:88-93` can deliver: an exception
(network error, DNS failure, timeout, ...) or a response with a status
code and a body; `body = none` models a non-JSON / unparseable body
(`response.json()` raises). -/
inductive FetchResponse where
  | failure
  | response (status : Nat) (body : Option CmsBody)
deriving DecidableEq

/-- Embeds `fetch_and_process` (`main.py:78-103`) as a function of the HTTP
outcome.  `raise_for_status` raises for any non-2xx status; every
exception is caught and collapsed to `none` (`main.py:102-103`); the
parser runs only when `data.get("code") == 1` and `data.get("list")`
is truthy, i.e. a non-empty list (`main.py:97-98`). -/
def fetch_and_process (source_name : Str) (resp : FetchResponse) :
    Option SourceResult :=
  match resp with
  | .failure => none
  | .response status body =>
    if 200 ≤ status ∧ status < 300 then
      match body with
      | none => none
      | some data =>
        if data.code = some 1 then
          match data.list with
          | some (item :: rest) => some (parse_cms_data source_name (item :: rest))
          | _ => none
        else none
    else none

/-- The emission test of the generator loop (`main.py:116-118`):
a settled task's result is yielded iff it is not `None` and its
`"result"` list is non-empty. -/
def emitResult (result : Option SourceResult) : Option SourceResult :=
  match result with
  | some r => if r.result = [] then none else some r
  | none => none

/-- Embeds `search_event_generator` (`main.py:105-118`), applied to the list
of per-task fetch outcomes in the order the tasks completed
(`asyncio.as_completed` yields settled tasks in completion order). -/
def search_event_generator (completed : List (Option SourceResult)) :
    List SourceResult :=
  completed.filterMap emitResult

/-- One launched fetch task, modelled by the instant at which it
settles together with the `fetch_and_process` outcome it settles to. -/
structure FetchTask where
  finish_time : Nat
  outcome : Option SourceResult
deriving DecidableEq

/-- Insert one task into a completion-ordered list, keeping order. -/
def insertByTime (t : FetchTask) : List FetchTask → List FetchTask
  | [] => [t]
  | x :: xs => if t.finish_time < x.finish_time then t :: x :: xs
               else x :: insertByTime t xs

/-- Embeds `asyncio.as_completed(tasks)` (`main.py:115`): the launched tasks
reordered by the time at which each settles (a stable sort on
`finish_time`; the source-list position plays no role). -/
def as_completed (tasks : List FetchTask) : List FetchTask :=
  tasks.foldr insertByTime []

/-- The whole streaming search over timed tasks: settle the tasks in
completion order and run the generator's emission filter over them. -/
def search_stream (tasks : List FetchTask) : List SourceResult :=
  search_event_generator ((as_completed tasks).map FetchTask.outcome)

/-- One configured base-URL item (`BaseUrlItem`, `main.py:18-21`). -/
structure BaseUrlItem where
  name : Str
  base_url : Str
deriving DecidableEq

/-- The full site configuration (`SiteConfigModel`, `main.py:23-29`). -/
structure SiteConfigModel where
  site_name : Str
  pc_background_image_url : Str
  phone_background_image_url : Str
  timeout : Int
  base_urls : List BaseUrlItem
deriving DecidableEq

/-- Embeds `update_config` (`main.py:137-162`) as a state transition on the
global `site_config`.  The effectful steps — `model_dump_json` and the
file write — are passed in as fallible functions; the global is
reassigned only after both succeed, and any exception turns into an
HTTP 500 error response instead of a success payload. -/
def update_config (site_config : SiteConfigModel)
    (config_data : SiteConfigModel)
    (dump_json : SiteConfigModel → Except Str Str)
    (write_file : Str → Except Str Unit) :
    SiteConfigModel × Except (Nat × Str) SiteConfigModel :=
  match dump_json config_data with
  | .error e => (site_config, .error (500, str "Error updating config: " ++ e))
  | .ok config_json_string =>
    match write_file config_json_string with
    | .error e => (site_config, .error (500, str "Error updating config: " ++ e))
    | .ok _ => (config_data, .ok config_data)

/-! ### Helper lemmas -/

/-- A token is kept by the episode parser iff its `$`-split has
exactly two parts (empty parts are not rejected). -/
theorem parseEpisodeToken_isSome_iff (tok : Str) :
    (parseEpisodeToken tok).isSome ↔ (splitOnChar '$' tok).length = 2 := by
  unfold parseEpisodeToken
  rcases hl : splitOnChar '$' tok with _ | ⟨a, _ | ⟨b, _ | ⟨c, l⟩⟩⟩ <;> simp

/-- An entry contributes a title only with a non-empty video list. -/
theorem parseEntry_videos_nonempty (item : RawEntry) (t : TitleResult)
    (h : parseEntry item = some t) : t.videos ≠ [] := by
  unfold parseEntry at h
  by_cases hv : (splitOnChar '#' (playScheme item)).filterMap parseEpisodeToken = []
  · simp [hv] at h
  · simp [hv] at h
    rw [← h]
    exact hv

/-- Whatever was yielded by the generator has a non-empty result list. -/
theorem generator_result_nonempty (completed : List (Option SourceResult))
    (r : SourceResult) (h : r ∈ search_event_generator completed) :
    r.result ≠ [] := by
  unfold search_event_generator at h
  rcases List.mem_filterMap.mp h with ⟨o, _, ho⟩
  cases o with
  | none => simp [emitResult] at ho
  | some r2 =>
    by_cases hr : r2.result = []
    · simp [emitResult, hr] at ho
    · simp [emitResult, hr] at ho
      rw [← ho]
      exact hr

/-! ### Claims -/

/-- C1: every SourceResult yielded by the streaming generator has at
least one title; every title built by the parser has at least one
episode; an entry all of whose episode tokens are malformed yields no
title (so an all-malformed SourceResult has `result = []` and is never
yielded). -/
theorem c1_nonempty_invariants :
    (∀ (completed : List (Option SourceResult)) (r : SourceResult),
        r ∈ search_event_generator completed → r.result ≠ []) ∧
    (∀ (source_name : Str) (cms_list : List RawEntry) (t : TitleResult),
        t ∈ (parse_cms_data source_name cms_list).result → t.videos ≠ []) ∧
    (∀ item : RawEntry,
        (∀ tok ∈ splitOnChar '#' (playScheme item), parseEpisodeToken tok = none) →
        parseEntry item = none) := by
  refine ⟨fun completed r h => generator_result_nonempty completed r h,
          fun source_name cms_list t ht => ?_, fun item h => ?_⟩
  · unfold parse_cms_data at ht
    rcases List.mem_filterMap.mp ht with ⟨item, _, hi⟩
    exact parseEntry_videos_nonempty item t hi
  · unfold parseEntry
    have hv : (splitOnChar '#' (playScheme item)).filterMap parseEpisodeToken = [] :=
      List.filterMap_eq_nil_iff.mpr h
    simp [hv]

/-- Witness for C1 at concrete inputs. -/
theorem c1_nonempty_invariants_witness :
    (⟨str "s", [⟨str "t", [], [⟨str "A", str "u"⟩], [], []⟩]⟩ : SourceResult).result ≠ [] ∧
    (⟨str "未知名称", [], [⟨str "A", str "u"⟩], [], []⟩ : TitleResult).videos ≠ [] ∧
    parseEntry ⟨none, none, some (str "x"), none, none⟩ = none :=
  ⟨c1_nonempty_invariants.1
      [some ⟨str "s", [⟨str "t", [], [⟨str "A", str "u"⟩], [], []⟩]⟩] _ (by decide),
   c1_nonempty_invariants.2.1 (str "s")
      [⟨none, none, some (str "A$u"), none, none⟩] _ (by decide),
   c1_nonempty_invariants.2.2 ⟨none, none, some (str "x"), none, none⟩ (by decide)⟩

/-- C2 counterexample: the token `$url1` splits on `$` into an empty
name and `url1`, yet the parser keeps it, so a parsed title contains an
episode whose name is empty — refuting "exactly two non-empty parts"
and "name and video_url always non-empty". -/
theorem c2_counterexample :
    parse_cms_data (str "s") [⟨none, none, some (str "$url1"), none, none⟩] =
      ⟨str "s", [⟨str "未知名称", [], [⟨[], str "url1"⟩], [], []⟩]⟩ := by
  decide

/-- C2 amended: a token is kept as an episode iff its `$`-split has
exactly two parts — empty parts are accepted — and the episode's name
and video_url are exactly those two (possibly empty) parts. -/
theorem c2_two_parts_kept (tok : Str) :
    ((parseEpisodeToken tok).isSome ↔ (splitOnChar '$' tok).length = 2) ∧
    (∀ a b, splitOnChar '$' tok = [a, b] → parseEpisodeToken tok = some ⟨a, b⟩) := by
  refine ⟨parseEpisodeToken_isSome_iff tok, fun a b hab => ?_⟩
  unfold parseEpisodeToken
  rw [hab]

/-- Witness for C2's amended theorem at the token `a$b`. -/
theorem c2_two_parts_kept_witness :
    parseEpisodeToken (str "a$b") = some ⟨str "a", str "b"⟩ :=
  (c2_two_parts_kept (str "a$b")).2 (str "a") (str "b") (by decide)

/-- The `$$$`-split of the C5 play string keeps only what precedes the
first `$$$`, whatever the suffix. -/
theorem splitOn3Dollars_c5_scheme (s : Str) :
    splitOn3Dollars (str "A$url1#B$url2$$$" ++ s) =
      str "A$url1#B$url2" :: splitOn3Dollars s := rfl

/-- C5: an entry whose play URL is `A$url1#B$url2$$$<suffix>` parses to
exactly the episodes (A, url1) and (B, url2) in order, for every suffix
— nothing after the first `$$$` influences the result — and with no
`$$$` present the whole string is used and yields the same episodes. -/
theorem c5_first_scheme_only (s : Str) (item item2 : RawEntry)
    (h : item.vod_play_url = some (str "A$url1#B$url2$$$" ++ s))
    (h2 : item2.vod_play_url = some (str "A$url1#B$url2")) :
    parseEntry item = some ⟨item.vod_name.getD (str "未知名称"),
      item.vod_pic.getD [],
      [⟨str "A", str "url1"⟩, ⟨str "B", str "url2"⟩],
      item.vod_id.getD [], item.vod_douban_id.getD []⟩ ∧
    parseEntry item2 = some ⟨item2.vod_name.getD (str "未知名称"),
      item2.vod_pic.getD [],
      [⟨str "A", str "url1"⟩, ⟨str "B", str "url2"⟩],
      item2.vod_id.getD [], item2.vod_douban_id.getD []⟩ := by
  have hps : playScheme item = str "A$url1#B$url2" := by
    unfold playScheme
    rw [h]
    rfl
  have hps2 : playScheme item2 = str "A$url1#B$url2" := by
    unfold playScheme
    rw [h2]
    rfl
  constructor
  · unfold parseEntry
    rw [hps]
    rfl
  · unfold parseEntry
    rw [hps2]
    rfl

/-- Witness for C5 with the literal suffix `ignored`. -/
theorem c5_first_scheme_only_witness :
    parseEntry ⟨none, none, some (str "A$url1#B$url2$$$ignored"), none, none⟩ =
      some ⟨str "未知名称", [], [⟨str "A", str "url1"⟩, ⟨str "B", str "url2"⟩], [], []⟩ ∧
    parseEntry ⟨none, none, some (str "A$url1#B$url2"), none, none⟩ =
      some ⟨str "未知名称", [], [⟨str "A", str "url1"⟩, ⟨str "B", str "url2"⟩], [], []⟩ :=
  c5_first_scheme_only (str "ignored")
    ⟨none, none, some (str "A$url1#B$url2$$$ignored"), none, none⟩
    ⟨none, none, some (str "A$url1#B$url2"), none, none⟩ rfl rfl

/-- C6: a token whose `$`-split has any arity other than two is
dropped, and dropping it leaves the parsing of the sibling tokens of
the same entry untouched. -/
theorem c6_malformed_token_dropped :
    (∀ tok : Str, (splitOnChar '$' tok).length ≠ 2 → parseEpisodeToken tok = none) ∧
    (∀ (pre post : List Str) (tok : Str), parseEpisodeToken tok = none →
        (pre ++ tok :: post).filterMap parseEpisodeToken =
          (pre ++ post).filterMap parseEpisodeToken) := by
  constructor
  · intro tok hlen
    have := (parseEpisodeToken_isSome_iff tok).not.mpr hlen
    exact Option.not_isSome_iff_eq_none.mp this
  · intro pre post tok htok
    simp [List.filterMap_append, List.filterMap_cons, htok]

/-- Witness for C6: the three-part token `a$b$c` is dropped and its
well-formed siblings still parse. -/
theorem c6_malformed_token_dropped_witness :
    parseEpisodeToken (str "a$b$c") = none ∧
    ([str "A$u", str "a$b$c", str "B$v"].filterMap parseEpisodeToken =
      [str "A$u", str "B$v"].filterMap parseEpisodeToken) :=
  ⟨c6_malformed_token_dropped.1 (str "a$b$c") (by decide),
   c6_malformed_token_dropped.2 [str "A$u"] [str "B$v"] (str "a$b$c")
     (c6_malformed_token_dropped.1 (str "a$b$c") (by decide))⟩

/-- C3 counterexample: for the keyword `a b`, the URL built at
`main.py:82` carries the raw space and differs from the URL obtained
with the percent-encoded keyword the spec requires. -/
theorem c3_counterexample :
    build_url (str "http://api.example.com/vod/") (str "a b") ≠
      str "http://api.example.com/vod/" ++ str "?ac=detail&wd=" ++
        percent_encode (str "a b") := by
  decide

/-- C3 amended: the request URL is the base_url with `?ac=detail&wd=`
and the keyword appended verbatim — no percent-encoding (or any other
transformation) is applied, so the keyword is a literal suffix. -/
theorem c3_url_plain_append (base_url keyword : Str) :
    build_url base_url keyword = base_url ++ str "?ac=detail&wd=" ++ keyword ∧
    (build_url base_url keyword).drop (base_url.length + 14) = keyword := by
  refine ⟨rfl, ?_⟩
  have hlen : (base_url ++ str "?ac=detail&wd=").length = base_url.length + 14 := by
    rw [List.length_append]
    rfl
  unfold build_url
  rw [← hlen, List.drop_left]

/-- C4 counterexample: a 200 response with `code = 1` and a non-empty
`list` whose only entry has no play URL parses to zero titles, yet
`fetch_and_process` returns that empty SourceResult, not `None`. -/
theorem c4_counterexample :
    fetch_and_process (str "s")
        (.response 200 (some ⟨some 1, some [⟨none, none, none, none, none⟩]⟩)) =
      some ⟨str "s", []⟩ := by
  decide

/-- C4 amended: on the expected shape the fetch returns the parsed
SourceResult unconditionally, empty or not; the emptiness check lives
in the generator (`main.py:117`), which never emits a SourceResult
with zero titles, so empty results still never reach the consumer. -/
theorem c4_empty_filtered_downstream (source_name : Str) (status : Nat)
    (data : CmsBody) (item : RawEntry) (rest : List RawEntry)
    (h2xx : 200 ≤ status ∧ status < 300)
    (hcode : data.code = some 1) (hlist : data.list = some (item :: rest)) :
    fetch_and_process source_name (.response status (some data)) =
      some (parse_cms_data source_name (item :: rest)) ∧
    (∀ (completed : List (Option SourceResult)) (r : SourceResult),
        r ∈ search_event_generator completed → r.result ≠ []) := by
  refine ⟨?_, fun completed r h => generator_result_nonempty completed r h⟩
  simp [fetch_and_process, h2xx.1, h2xx.2, hcode, hlist]

/-- Witness for C4's amended theorem at a concrete 200 response. -/
theorem c4_empty_filtered_downstream_witness :
    fetch_and_process (str "s")
        (.response 200 (some ⟨some 1, some [⟨none, none, none, none, none⟩]⟩)) =
      some (parse_cms_data (str "s") [⟨none, none, none, none, none⟩]) ∧
    (⟨str "s", [⟨str "t", [], [⟨str "A", str "u"⟩], [], []⟩]⟩ : SourceResult).result ≠ [] :=
  ⟨(c4_empty_filtered_downstream (str "s") 200 ⟨some 1, some [⟨none, none, none, none, none⟩]⟩
      ⟨none, none, none, none, none⟩ [] (by decide) rfl rfl).1,
   (c4_empty_filtered_downstream (str "s") 200 ⟨some 1, some [⟨none, none, none, none, none⟩]⟩
      ⟨none, none, none, none, none⟩ [] (by decide) rfl rfl).2
     [some ⟨str "s", [⟨str "t", [], [⟨str "A", str "u"⟩], [], []⟩]⟩] _ (by decide)⟩

/-- C7: the per-source fetch returns `None` on a network error, on any
non-2xx status, on a non-JSON body, on `code ≠ 1` and on a missing or
empty `list`; only a 2xx JSON body with `code = 1` and a non-empty
`list` is handed to the parser, whose result is returned. -/
theorem c7_failures_collapse_to_none (source_name : Str) :
    fetch_and_process source_name .failure = none ∧
    (∀ status body, ¬(200 ≤ status ∧ status < 300) →
        fetch_and_process source_name (.response status body) = none) ∧
    (∀ status, fetch_and_process source_name (.response status none) = none) ∧
    (∀ status data, data.code ≠ some 1 →
        fetch_and_process source_name (.response status (some data)) = none) ∧
    (∀ status data, data.list = none ∨ data.list = some [] →
        fetch_and_process source_name (.response status (some data)) = none) ∧
    (∀ status data item rest, 200 ≤ status → status < 300 →
        data.code = some 1 → data.list = some (item :: rest) →
        fetch_and_process source_name (.response status (some data)) =
          some (parse_cms_data source_name (item :: rest))) := by
  refine ⟨rfl, fun status body hs => ?_, fun status => ?_,
          fun status data hc => ?_, fun status data hl => ?_,
          fun status data item rest h1 h2 hc hl => ?_⟩
  · simp [fetch_and_process, hs]
  · simp [fetch_and_process]
  · simp [fetch_and_process, hc]
  · rcases hl with hl | hl <;> simp [fetch_and_process, hl]
  · simp [fetch_and_process, h1, h2, hc, hl]

/-- Witness for C7 across its failure and success branches. -/
theorem c7_failures_collapse_to_none_witness :
    fetch_and_process (str "s") .failure = none ∧
    fetch_and_process (str "s") (.response 404 (some ⟨some 1,
        some [⟨none, none, some (str "A$u"), none, none⟩]⟩)) = none ∧
    fetch_and_process (str "s") (.response 200 none) = none ∧
    fetch_and_process (str "s") (.response 200 (some ⟨some 0,
        some [⟨none, none, some (str "A$u"), none, none⟩]⟩)) = none ∧
    fetch_and_process (str "s") (.response 200 (some ⟨some 1, some []⟩)) = none ∧
    fetch_and_process (str "s") (.response 200 (some ⟨some 1,
        some [⟨none, none, some (str "A$u"), none, none⟩]⟩)) =
      some (parse_cms_data (str "s") [⟨none, none, some (str "A$u"), none, none⟩]) :=
  ⟨(c7_failures_collapse_to_none (str "s")).1,
   (c7_failures_collapse_to_none (str "s")).2.1 404 _ (by decide),
   (c7_failures_collapse_to_none (str "s")).2.2.1 200,
   (c7_failures_collapse_to_none (str "s")).2.2.2.1 200 _ (by decide),
   (c7_failures_collapse_to_none (str "s")).2.2.2.2.1 200 _ (Or.inr rfl),
   (c7_failures_collapse_to_none (str "s")).2.2.2.2.2 200 _ _ [] (by decide) (by decide)
     rfl rfl⟩

/-- C8: when every launched task either fails or succeeds with a
non-empty parsed result, the generator emits exactly the successful
outcomes, in order, so the stream has N − K emissions for K failures
out of N tasks; when every task fails it emits nothing (and, being a
list, it terminates). -/
theorem c8_emission_count (outcomes : List (Option SourceResult)) :
    ((∀ o ∈ outcomes, ∀ r : SourceResult, o = some r → r.result ≠ []) →
      search_event_generator outcomes = outcomes.filterMap id ∧
      (search_event_generator outcomes).length =
        outcomes.length - outcomes.count none) ∧
    ((∀ o ∈ outcomes, o = none) → search_event_generator outcomes = []) := by
  constructor
  · induction outcomes with
    | nil => exact fun _ => ⟨rfl, rfl⟩
    | cons o tl ih =>
      intro h
      have htl := fun o ho r hr => h o (List.mem_cons_of_mem _ ho) r hr
      obtain ⟨ih1, ih2⟩ := ih htl
      have hcount := List.count_le_length none tl
      cases o with
      | none =>
        have hgen : search_event_generator (none :: tl) = search_event_generator tl := by
          simp [search_event_generator, emitResult]
        refine ⟨by rw [hgen, ih1]; simp, ?_⟩
        rw [hgen, ih2]
        simp [List.count_cons]
      | some r =>
        have hr : r.result ≠ [] := h (some r) (List.mem_cons_self (some r) tl) r rfl
        have hgen : search_event_generator (some r :: tl) =
            r :: search_event_generator tl := by
          simp [search_event_generator, emitResult, hr]
        refine ⟨by rw [hgen, ih1]; simp, ?_⟩
        rw [hgen]
        simp [List.count_cons]
        omega
  · intro h
    unfold search_event_generator
    exact List.filterMap_eq_nil_iff.mpr fun o ho => by rw [h o ho]; rfl

/-- Witness for C8 with one success, one failure, and an all-failed run. -/
theorem c8_emission_count_witness :
    (search_event_generator
        [some ⟨str "s", [⟨str "t", [], [⟨str "A", str "u"⟩], [], []⟩]⟩, none] =
      [some ⟨str "s", [⟨str "t", [], [⟨str "A", str "u"⟩], [], []⟩]⟩,
       (none : Option SourceResult)].filterMap id ∧
     (search_event_generator
        [some ⟨str "s", [⟨str "t", [], [⟨str "A", str "u"⟩], [], []⟩]⟩, none]).length =
      2 - [some ⟨str "s", [⟨str "t", [], [⟨str "A", str "u"⟩], [], []⟩]⟩,
           (none : Option SourceResult)].count none) ∧
    search_event_generator [none, none] = [] :=
  ⟨(c8_emission_count
      [some ⟨str "s", [⟨str "t", [], [⟨str "A", str "u"⟩], [], []⟩]⟩, none]).1
      (by
        intro o ho r hr
        rw [hr] at ho
        rcases List.mem_cons.mp ho with h1 | h1
        · cases h1
          decide
        · rcases List.mem_cons.mp h1 with h2 | h2
          · exact absurd h2 (by simp)
          · exact absurd h2 (by simp)),
   (c8_emission_count [none, none]).2 (by decide)⟩

/-- Completion-time comparison between two fetch tasks. -/
def byTime (a b : FetchTask) : Prop := a.finish_time ≤ b.finish_time

/-- Inserting a task keeps the list a permutation of the new task
consed onto the old list. -/
theorem insertByTime_perm (t : FetchTask) (xs : List FetchTask) :
    (insertByTime t xs).Perm (t :: xs) := by
  induction xs with
  | nil => exact List.Perm.refl _
  | cons x xs ih =>
    unfold insertByTime
    by_cases hc : t.finish_time < x.finish_time
    · rw [if_pos hc]
    · rw [if_neg hc]
      exact (ih.cons x).trans (List.Perm.swap t x xs)

/-- Inserting a task into a completion-sorted list keeps it sorted. -/
theorem insertByTime_sorted (t : FetchTask) (xs : List FetchTask)
    (h : List.Sorted byTime xs) : List.Sorted byTime (insertByTime t xs) := by
  induction xs with
  | nil => simp [insertByTime, byTime]
  | cons x xs ih =>
    rw [List.sorted_cons] at h
    obtain ⟨hx, hxs⟩ := h
    unfold insertByTime
    by_cases hc : t.finish_time < x.finish_time
    · rw [if_pos hc, List.sorted_cons]
      refine ⟨fun b hb => ?_, List.sorted_cons.mpr ⟨hx, hxs⟩⟩
      rcases List.mem_cons.mp hb with hb | hb
      · rw [hb]
        exact le_of_lt hc
      · exact le_trans (le_of_lt hc) (hx b hb)
    · rw [if_neg hc, List.sorted_cons]
      refine ⟨fun b hb => ?_, ih hxs⟩
      have hb2 : b ∈ t :: xs := (insertByTime_perm t xs).mem_iff.mp hb
      rcases List.mem_cons.mp hb2 with hb2 | hb2
      · rw [hb2]
        exact Nat.le_of_not_lt hc
      · exact hx b hb2

/-- The completion reordering is a permutation of the launched tasks. -/
theorem as_completed_perm (tasks : List FetchTask) :
    (as_completed tasks).Perm tasks := by
  induction tasks with
  | nil => exact List.Perm.refl _
  | cons t ts ih =>
    exact (insertByTime_perm t (as_completed ts)).trans (ih.cons t)

/-- The completion reordering is sorted by finish time. -/
theorem as_completed_sorted (tasks : List FetchTask) :
    List.Sorted byTime (as_completed tasks) := by
  induction tasks with
  | nil => exact List.sorted_nil
  | cons t ts ih => exact insertByTime_sorted t (as_completed ts) ih

/-- C9: the stream settles tasks in completion order — `as_completed`
is a finish-time-sorted permutation of the launched tasks — so for two
sources listed as [A, B] where A settles strictly later than B, B's
(non-empty) result is emitted before A's, regardless of list order. -/
theorem c9_completion_order_emission (tasks : List FetchTask)
    (tA tB : Nat) (rA rB : SourceResult) (horder : tB < tA)
    (hA : rA.result ≠ []) (hB : rB.result ≠ []) :
    (as_completed tasks).Perm tasks ∧
    List.Sorted byTime (as_completed tasks) ∧
    search_stream [⟨tA, some rA⟩, ⟨tB, some rB⟩] = [rB, rA] := by
  refine ⟨as_completed_perm tasks, as_completed_sorted tasks, ?_⟩
  have hnot : ¬ tA < tB := by omega
  simp [search_stream, as_completed, insertByTime, search_event_generator,
        emitResult, hnot, hA, hB]

/-- Witness for C9: source A settles at 200 ms, source B at 50 ms; B is
emitted first. -/
theorem c9_completion_order_emission_witness :
    search_stream
        [⟨200, some ⟨str "A", [⟨str "tA", [], [⟨str "e", str "u"⟩], [], []⟩]⟩⟩,
         ⟨50, some ⟨str "B", [⟨str "tB", [], [⟨str "e", str "v"⟩], [], []⟩]⟩⟩] =
      [⟨str "B", [⟨str "tB", [], [⟨str "e", str "v"⟩], [], []⟩]⟩,
       ⟨str "A", [⟨str "tA", [], [⟨str "e", str "u"⟩], [], []⟩]⟩] :=
  (c9_completion_order_emission [] 200 50
      ⟨str "A", [⟨str "tA", [], [⟨str "e", str "u"⟩], [], []⟩]⟩
      ⟨str "B", [⟨str "tB", [], [⟨str "e", str "v"⟩], [], []⟩]⟩
      (by decide) (by decide) (by decide)).2.2

/-- C10: if serializing the configuration or writing the file fails,
the in-memory configuration is left unchanged (the global is only
reassigned after the write succeeds) and the handler answers with an
HTTP 500 error, not a success payload. -/
theorem c10_config_unchanged_on_failure (site_config config_data : SiteConfigModel)
    (dump_json : SiteConfigModel → Except Str Str)
    (write_file : Str → Except Str Unit)
    (hfail : (∃ e, dump_json config_data = .error e) ∨
             (∃ s e, dump_json config_data = .ok s ∧ write_file s = .error e)) :
    (update_config site_config config_data dump_json write_file).1 = site_config ∧
    ∃ e, (update_config site_config config_data dump_json write_file).2 =
        .error (500, str "Error updating config: " ++ e) := by
  rcases hfail with ⟨e, he⟩ | ⟨s, e, hs, he⟩
  · simp only [update_config, he]
    exact ⟨trivial, e, rfl⟩
  · simp only [update_config, hs, he]
    exact ⟨trivial, e, rfl⟩

/-- Witness for C10 with a failing serializer. -/
theorem c10_config_unchanged_on_failure_witness :
    (update_config ⟨str "site", [], [], 10, []⟩ ⟨str "new", [], [], 5, []⟩
        (fun _ => .error (str "boom")) (fun _ => .ok ())).1 =
      ⟨str "site", [], [], 10, []⟩ ∧
    ∃ e, (update_config ⟨str "site", [], [], 10, []⟩ ⟨str "new", [], [], 5, []⟩
        (fun _ => .error (str "boom")) (fun _ => .ok ())).2 =
      .error (500, str "Error updating config: " ++ e) :=
  c10_config_unchanged_on_failure ⟨str "site", [], [], 10, []⟩ ⟨str "new", [], [], 5, []⟩
    (fun _ => .error (str "boom")) (fun _ => .ok ())
    (Or.inl ⟨str "boom", rfl⟩)
